import Mathlib

/-!
Verification of the natural-language specification of `src/dl/js_download.py`
(a bulk JavaScript downloader) against a shallow embedding of its code.

Strings are modelled as Lean `String`s (lists of characters); Python's
standard-library helpers used by the code (`urllib.parse.urlparse`,
`os.path.splitext`, `str.split`, `str.strip`, `re.sub` over one-character
classes, `dict` update) are embedded with their CPython semantics.  I/O and
the network are modelled by an explicit environment (`Env`) recording what
the filesystem and the HTTP layer would answer.
-/

namespace JsDownload

/-- The characters replaced by `sanitize_filename`
(Python `re.sub` with the class `[<>:"|?*]`). -/
def bannedChars : List Char := ['<', '>', ':', '"', '|', '?', '*']

/-- `sanitize_filename` (js_download.py lines 17-20): replace every character
of the class `<>:"|?*` by an underscore. -/
def sanitize_filename (filename : String) : String :=
  String.mk (filename.data.map (fun c => if c ∈ bannedChars then '_' else c))

/-- The query representation appended to file names
(js_download.py line 55): every non-alphanumeric character becomes `_`
(`Char.isAlphanum` is exactly the ASCII class `[a-zA-Z0-9]`),
then the result is truncated to 50 characters. -/
def query_safe (q : String) : String :=
  String.mk ((q.data.map (fun c => if c.isAlphanum then c else '_')).take 50)

/-- Python `os.path.splitext` on a name without path separators: split at the
last dot, unless every character before that dot is itself a dot (so names
consisting only of a leading-dots prefix, such as `.js`, are not split). -/
def splitext_data (l : List Char) : List Char × List Char :=
  match (l.reverse.findIdx? (fun c => c = '.')) with
  | none => (l, [])
  | some j =>
    if (l.take (l.length - 1 - j)).any (fun c => c ≠ '.') then
      (l.take (l.length - 1 - j), l.drop (l.length - 1 - j))
    else (l, [])

/-- Python `str.split(sep)` for a one-character separator: splits on every
occurrence, keeping empty pieces; the empty string yields `[[]]`. -/
def splitChar (sep : Char) : List Char → List (List Char)
  | [] => [[]]
  | c :: rest =>
    if c = sep then [] :: splitChar sep rest
    else (c :: (splitChar sep rest).headD []) :: (splitChar sep rest).tail

/-- Split a character list at the first occurrence of `sep` (the separator is
dropped); `none` when `sep` does not occur.  Models Python
`s.split(sep, 1)` guarded by `sep in s`, and `s.find(sep)`. -/
def splitFirst (sep : Char) : List Char → Option (List Char × List Char)
  | [] => none
  | c :: rest =>
    if c = sep then some ([], rest)
    else (splitFirst sep rest).map (fun p => (c :: p.1, p.2))

/-- Take characters until one of the stop characters is met, returning the
prefix and the rest (models CPython `urllib.parse._splitnetloc`). -/
def takeUntilStops (stops : List Char) : List Char → List Char × List Char
  | [] => ([], [])
  | c :: rest =>
    if c ∈ stops then ([], c :: rest)
    else
      let p := takeUntilStops stops rest
      (c :: p.1, p.2)

/-- WHATWG C0-control-or-space class stripped by CPython `urlsplit` from both
ends of the URL. -/
def isC0OrSpace (c : Char) : Bool := c.toNat ≤ 32

/-- Strip C0 controls and spaces from both ends (CPython `urlsplit`). -/
def stripC0Space (l : List Char) : List Char :=
  ((l.dropWhile isC0OrSpace).reverse.dropWhile isC0OrSpace).reverse

/-- Characters allowed in a URL scheme (CPython `urllib.parse.scheme_chars`). -/
def scheme_char (c : Char) : Bool :=
  c.isAlphanum || c == '+' || c == '-' || c == '.'

/-- The result of CPython `urllib.parse.urlsplit`. -/
structure SplitResult where
  scheme : String
  netloc : String
  path : String
  query : String
  fragment : String
deriving DecidableEq

/-- CPython `urllib.parse.urlsplit` (the standard-library routine the code
calls through `urlparse`): strip unsafe bytes, split off `scheme:`,
`//netloc`, `#fragment` and `?query`.  Returns `none` exactly where CPython
raises `ValueError: Invalid IPv6 URL`, namely when the authority component
contains `[` without `]` or `]` without `[`. -/
def urlsplit (url : String) : Option SplitResult :=
  let u1 := stripC0Space url.data
  let u2 := u1.filter (fun c => !(c == '\t') && !(c == '\r') && !(c == '\n'))
  let sr :=
    match splitFirst ':' u2 with
    | some (pre, post) =>
      if (pre.headD '0').isAlpha && pre.all scheme_char
      then (String.mk (pre.map Char.toLower), post)
      else ("", u2)
    | none => ("", u2)
  let rest1 := sr.2
  let nr :=
    if rest1.take 2 = ['/', '/'] then takeUntilStops ['/', '?', '#'] (rest1.drop 2)
    else ([], rest1)
  if nr.1.contains '[' != nr.1.contains ']' then none
  else
    let fr :=
      match splitFirst '#' nr.2 with
      | some (a, b) => (a, b)
      | none => (nr.2, [])
    let qr :=
      match splitFirst '?' fr.1 with
      | some (a, b) => (a, b)
      | none => (fr.1, [])
    some ⟨sr.1, String.mk nr.1, String.mk qr.1, String.mk qr.2, String.mk fr.2⟩

/-- Schemes for which `urlparse` splits parameters off the last path segment
(CPython `urllib.parse.uses_params`). -/
def uses_params : List String :=
  ["", "ftp", "hdl", "prot", "http", "imap", "https", "shttp", "rtsp",
   "rtspu", "sip", "sips", "mms", "sftp", "tel"]

/-- CPython `urllib.parse._splitparams`: split `;params` off the last path
segment (the search for `;` starts at the last `/`). -/
def splitparams_data (l : List Char) : List Char × List Char :=
  if l.contains '/' then
    let last := (splitChar '/' l).getLastD []
    match splitFirst ';' last with
    | none => (l, [])
    | some (a, b) => (l.take (l.length - last.length + a.length), b)
  else
    match splitFirst ';' l with
    | none => (l, [])
    | some (a, b) => (a, b)

/-- The result of CPython `urllib.parse.urlparse`. -/
structure ParseResult where
  scheme : String
  netloc : String
  path : String
  params : String
  query : String
  fragment : String
deriving DecidableEq

/-- CPython `urllib.parse.urlparse`: `urlsplit`, then split path parameters
for the schemes of `uses_params`.  `none` where CPython raises
`ValueError`. -/
def urlparse (url : String) : Option ParseResult :=
  match urlsplit url with
  | none => none
  | some s =>
    if uses_params.contains s.scheme && s.path.data.contains ';' then
      let p := splitparams_data s.path.data
      some ⟨s.scheme, s.netloc, String.mk p.1, String.mk p.2, s.query, s.fragment⟩
    else
      some ⟨s.scheme, s.netloc, s.path, "", s.query, s.fragment⟩

/-- Python `s.strip(c)` for one character `c`: remove every leading and
trailing occurrence. -/
def pyStripChar (c : Char) (s : String) : String :=
  String.mk (((s.data.dropWhile (fun d => d = c)).reverse.dropWhile (fun d => d = c)).reverse)

/-- The path segments of an already-stripped URL path:
Python `path.split('/')` (js_download.py line 34). -/
def path_segments (path : String) : List String :=
  (splitChar '/' path.data).map String.mk

/-- Python `s.endswith(t)`: `t` is a suffix of `s`. -/
def pyEndsWith (s t : String) : Bool :=
  decide (t.data = s.data.drop (s.data.length - t.data.length))

/-- js_download.py lines 33-45: split the stripped URL path into the raw file
name and the raw directory parts (`[domain] + ...`).  If the last segment
ends in `.js` it becomes the file name and the segments before it the
directories; otherwise the file name is `index.js` and the whole path is
directories; an empty path gives `index.js` under the domain alone. -/
def csd_split (domain : String) (path : String) : String × List String :=
  if path ≠ "" then
    let pp := path_segments path
    if pyEndsWith (pp.getLastD "") ".js" then
      (pp.getLastD "", domain :: pp.dropLast)
    else
      ("index.js", domain :: pp)
  else
    ("index.js", [domain])

/-- js_download.py lines 50-57: sanitize the file name, then, when the URL
carries a query string, insert `_` + `query_safe query` between the base
name and the extension (`os.path.splitext`). -/
def csd_filename (file_name : String) (query : String) : String :=
  let fn := sanitize_filename file_name
  if query ≠ "" then
    let be := splitext_data fn.data
    String.mk (be.1 ++ ('_' :: (query_safe query).data) ++ be.2)
  else fn

/-- `create_directory_structure` (js_download.py lines 22-59).  The directory
path `os.path.join(base_dir, *parts)` is modelled as the segment list
`base_dir :: parts` (no produced segment contains `/`, so the join is plain
concatenation).  `none` exactly where `urlparse` raises `ValueError`. -/
def create_directory_structure (url : String) (base_dir : String) :
    Option (List String × String) :=
  (urlparse url).map (fun pr =>
    let fd := csd_split pr.netloc (pyStripChar '/' pr.path)
    (base_dir :: fd.2.map sanitize_filename, csd_filename fd.1 pr.query))

/-- The five outcome classes of the spec's taxonomy, recording which branch of
`download_js` produced the result (which `[SKIP]`/`[SUCCESS]`/`[TIMEOUT]`/
`[ERROR]` line the code prints). -/
inductive Status where
  | success
  | skipped
  | timeout
  | networkError
  | otherError
deriving DecidableEq

/-- What `requests.get(...)` followed by `raise_for_status()` can do:
return the body text, raise `requests.exceptions.Timeout`, raise another
`requests.exceptions.RequestException` (including the `HTTPError` from
`raise_for_status`), or raise some other exception. -/
inductive FetchOutcome where
  | ok (text : String)
  | timeout
  | reqError (msg : String)
  | excError (msg : String)
deriving DecidableEq

/-- The environment one `download_js` call runs in: what `os.path.exists`
answers for a file path (modelled as its segment list), whether
`os.makedirs` raises an `OSError`, what the HTTP request does (as a function
of the headers sent), and whether writing the file raises. -/
structure Env where
  fileExists : List String → Bool
  mkdirError : Option String
  fetch : List (String × String) → FetchOutcome
  writeError : Option String

/-- The observable result of one `download_js` call: `ret` is the value the
Python function actually returns (the `(bool, url)` pair), `status` records
which branch produced it, and `fetchCalled` whether `requests.get` was
invoked. -/
structure Outcome where
  status : Status
  fetchCalled : Bool
  ret : Bool × String
deriving DecidableEq

/-- Python `dict` assignment `d[k] = v` on an insertion-ordered mapping with
distinct keys: replace in place when the key exists, append otherwise. -/
def dictSet : List (String × String) → String → String → List (String × String)
  | [], k, v => [(k, v)]
  | p :: rest, k, v =>
    if p.1 = k then (k, v) :: rest else p :: dictSet rest k v

/-- Python `d[k]` / `d.get(k)` lookup. -/
def dictGet : List (String × String) → String → Option String
  | [], _ => none
  | p :: rest, k => if p.1 = k then some p.2 else dictGet rest k

/-- Python `d.update(d2)`: assign every pair of `d2` into `d`, in order. -/
def dictUpdate (d : List (String × String)) (d2 : List (String × String)) :
    List (String × String) :=
  d2.foldl (fun acc p => dictSet acc p.1 p.2) d

/-- The default header set built in `download_js` (lines 79-81). -/
def default_headers : List (String × String) :=
  [("User-Agent", "Mozilla/5.0 (Windows NT 10.0; Win64; x64) AppleWebKit/537.36")]

/-- `download_js` (js_download.py lines 61-108).  The whole body runs inside
`try`; the three `except` clauses turn a `Timeout` into a failure, any other
`RequestException` into a failure, and any other exception (including the
`ValueError` a malformed URL makes `urlparse` raise, and `OSError` from
`makedirs` or the file write) into a failure; every branch returns
`(bool, url)`.  `custom_headers = None` is modelled by the empty list
(updating with an empty dict is the identity, matching the falsy check). -/
def download_js (env : Env) (url : String) (output_dir : String)
    (custom_headers : List (String × String)) : Outcome :=
  match create_directory_structure url output_dir with
  | none => ⟨Status.otherError, false, (false, url)⟩
  | some m =>
    match env.mkdirError with
    | some _ => ⟨Status.otherError, false, (false, url)⟩
    | none =>
      let filepath := m.1 ++ [m.2]
      if env.fileExists filepath then
        ⟨Status.skipped, false, (true, url)⟩
      else
        let headers := dictUpdate default_headers custom_headers
        match env.fetch headers with
        | FetchOutcome.timeout => ⟨Status.timeout, true, (false, url)⟩
        | FetchOutcome.reqError _ => ⟨Status.networkError, true, (false, url)⟩
        | FetchOutcome.excError _ => ⟨Status.otherError, true, (false, url)⟩
        | FetchOutcome.ok _ =>
          match env.writeError with
          | some _ => ⟨Status.otherError, true, (false, url)⟩
          | none => ⟨Status.success, true, (true, url)⟩

/-- js_download.py line 238: `unique_urls = list(set(urls))`.  A Python `set`
iterates its distinct elements in unspecified order; `List.dedup` (the
distinct elements, first occurrences kept) is one such enumeration, and every
property proved below about it is order-independent (membership, nodup,
length). -/
def unique_urls (urls : List String) : List String := urls.dedup

/-- js_download.py line 240: the reported number of removed duplicates,
`len(urls) - len(unique_urls)`. -/
def duplicates_removed (urls : List String) : Nat :=
  urls.length - (unique_urls urls).length

/-- js_download.py lines 248-252: one `download_js` task is submitted per URL
of the deduplicated list and one outcome collected per task.  The pool
collects outcomes in completion order; the list below is in submission
order, which is the same multiset of outcomes (every property proved about
it is order-independent). -/
def run_scheduler (env : String → Env) (urls : List String)
    (output_dir : String) (custom_headers : List (String × String)) :
    List Outcome :=
  (unique_urls urls).map (fun u => download_js (env u) u output_dir custom_headers)

/-- Python `str.strip()` whitespace: space, `\t`, `\n`, `\r`, `\x0b`, `\x0c`. -/
def pyIsSpace (c : Char) : Bool :=
  c == ' ' || c == '\t' || c == '\n' || c == '\r' || c == '\x0b' || c == '\x0c'

/-- Python `s.strip()`. -/
def pyStrip (s : String) : String :=
  String.mk (((s.data.dropWhile pyIsSpace).reverse.dropWhile pyIsSpace).reverse)

/-- js_download.py lines 194-206 (`main`): build the merged custom-header
dict.  Every command-line `-H` value containing a colon is split at the
first colon, stripped and assigned; then, when a header file was given, the
dict loaded from it is applied with `custom_headers.update(file_headers)`. -/
def collect_custom_headers (cli_headers : List String)
    (file_headers : Option (List (String × String))) : List (String × String) :=
  let fromCli := cli_headers.foldl (fun acc h =>
    match splitFirst ':' h.data with
    | some (k, v) => dictSet acc (pyStrip (String.mk k)) (pyStrip (String.mk v))
    | none => acc) []
  match file_headers with
  | some fh => dictUpdate fromCli fh
  | none => fromCli

/-- A string is filesystem-legal in the sense of the spec when it contains
none of the characters `< > : " | ? *`. -/
def bannedFree (s : String) : Bool :=
  s.data.all (fun c => !(bannedChars.contains c))

/-- A benign environment whose target file already exists. -/
def envExisting : Env :=
  ⟨fun _ => true, none, fun _ => FetchOutcome.ok "content", none⟩

/-- A benign environment with a fresh filesystem and a succeeding fetch. -/
def envFresh : Env :=
  ⟨fun _ => false, none, fun _ => FetchOutcome.ok "content", none⟩

/-- A fresh filesystem whose fetch times out. -/
def envTimeout : Env :=
  ⟨fun _ => false, none, fun _ => FetchOutcome.timeout, none⟩

/-- A fresh filesystem whose fetch raises a `RequestException`. -/
def envNetErr : Env :=
  ⟨fun _ => false, none, fun _ => FetchOutcome.reqError "connection refused", none⟩

theorem bannedFree_iff (s : String) :
    bannedFree s = true ↔ ∀ c ∈ s.data, c ∉ bannedChars := by
  simp [bannedFree, List.all_eq_true]

theorem bannedFree_sanitize (s : String) :
    bannedFree (sanitize_filename s) = true := by
  rw [bannedFree_iff]
  intro c hc
  simp only [sanitize_filename] at hc
  rcases List.mem_map.1 hc with ⟨d, _, hd⟩
  subst hd
  by_cases hb : d ∈ bannedChars
  · rw [if_pos hb]
    decide
  · rw [if_neg hb]
    exact hb

theorem sanitize_eq_self (s : String) (h : bannedFree s = true) :
    sanitize_filename s = s := by
  rw [bannedFree_iff] at h
  obtain ⟨l⟩ := s
  simp only [sanitize_filename]
  congr 1
  exact (List.map_congr_left (fun c hc => if_neg (h c hc))).trans (List.map_id' l)

theorem bannedFree_query_safe (q : String) :
    bannedFree (query_safe q) = true := by
  rw [bannedFree_iff]
  intro c hc
  simp only [query_safe] at hc
  rcases List.mem_map.1 (List.mem_of_mem_take hc) with ⟨d, _, hd⟩
  subst hd
  by_cases ha : d.isAlphanum
  · rw [if_pos ha]
    intro hmem
    simp only [bannedChars, List.mem_cons, List.not_mem_nil, or_false] at hmem
    rcases hmem with h | h | h | h | h | h | h <;> subst h <;> exact absurd ha (by decide)
  · rw [if_neg ha]
    decide

theorem bannedFree_of_subset (s t : String)
    (hsub : ∀ c ∈ s.data, c ∈ t.data) (ht : bannedFree t = true) :
    bannedFree s = true := by
  rw [bannedFree_iff] at ht ⊢
  exact fun c hc => ht c (hsub c hc)

theorem splitext_parts (l : List Char) (p : Char → Bool) (h : l.all p = true) :
    (splitext_data l).1.all p = true ∧ (splitext_data l).2.all p = true := by
  unfold splitext_data
  split
  · exact ⟨h, by simp⟩
  · split
    · refine ⟨?_, ?_⟩
      · exact List.all_eq_true.2 fun c hc =>
          List.all_eq_true.1 h c (List.mem_of_mem_take hc)
      · exact List.all_eq_true.2 fun c hc =>
          List.all_eq_true.1 h c (List.mem_of_mem_drop hc)
    · exact ⟨h, by simp⟩

theorem bannedFree_csd_filename (fn q : String) :
    bannedFree (csd_filename fn q) = true := by
  unfold csd_filename
  split
  · have hs := bannedFree_sanitize fn
    simp only [bannedFree] at hs
    have hparts := splitext_parts (sanitize_filename fn).data
      (fun c => !(bannedChars.contains c)) hs
    have hq := bannedFree_query_safe q
    simp only [bannedFree] at hq ⊢
    simp only [List.all_append, List.all_cons, Bool.and_eq_true]
    refine ⟨⟨hparts.1, ?_, hq⟩, hparts.2⟩
    decide
  · exact bannedFree_sanitize fn

/-- Claim C10: the sanitizer is idempotent and preserves the length of its
input. -/
theorem C10_sanitize_idempotent_and_length (s : String) :
    sanitize_filename (sanitize_filename s) = sanitize_filename s ∧
    (sanitize_filename s).length = s.length := by
  constructor
  · exact sanitize_eq_self _ (bannedFree_sanitize s)
  · show (sanitize_filename s).data.length = s.data.length
    simp [sanitize_filename]

/-- Claim C7: the per-URL worker converts every failure of its environment
(timeout, transport error, filesystem error, unexpected exception, even a
URL the parser rejects) into a failure result for that URL: it always
returns a pair carrying its own URL, and the returned flag is `false`
exactly in the three classified failure cases. -/
theorem C7_worker_never_raises (env : Env) (url output_dir : String)
    (custom : List (String × String)) :
    (download_js env url output_dir custom).ret.2 = url ∧
    ((download_js env url output_dir custom).ret.1 = false ↔
      ((download_js env url output_dir custom).status = Status.timeout ∨
       (download_js env url output_dir custom).status = Status.networkError ∨
       (download_js env url output_dir custom).status = Status.otherError)) := by
  unfold download_js
  cases hc : create_directory_structure url output_dir with
  | none => simp
  | some m =>
    cases hmk : env.mkdirError with
    | some e => simp
    | none =>
      dsimp only
      cases hex : env.fileExists (m.1 ++ [m.2]) with
      | true => simp [hex]
      | false =>
        simp only [hex, Bool.false_eq_true, if_false]
        cases hf : env.fetch (dictUpdate default_headers custom) with
        | ok text =>
          cases hw : env.writeError with
          | some e => simp
          | none => simp
        | timeout => simp
        | reqError m2 => simp
        | excError m2 => simp

theorem download_js_ret_snd (env : Env) (url output_dir : String)
    (custom : List (String × String)) :
    (download_js env url output_dir custom).ret.2 = url :=
  (C7_worker_never_raises env url output_dir custom).1

/-- Claim C3 counterexample: the path mapper is not total on arbitrary
malformed URLs: on `http://[` the library URL parser raises
`ValueError: Invalid IPv6 URL`, so `create_directory_structure` fails. -/
theorem C3_cex :
    create_directory_structure "http://[" "./js_files" = none := by decide

/-- Claim C3 (amended): the path mapper succeeds on every URL string the URL
parser accepts, i.e. every URL whose authority does not carry mismatched
square brackets; only the parser's `ValueError` escapes it. -/
theorem C3_amended_total_on_parsable (url base : String)
    (h : (urlparse url).isSome = true) :
    (create_directory_structure url base).isSome = true := by
  unfold create_directory_structure
  rcases hu : urlparse url with _ | pr
  · rw [hu] at h
    simp at h
  · simp

theorem C3_amended_total_on_parsable_witness :
    ((urlparse "::weird input%%, not a URL//").isSome = true) ∧
    (create_directory_structure "::weird input%%, not a URL//" "./js_files").isSome = true :=
  ⟨by decide, C3_amended_total_on_parsable _ "./js_files" (by decide)⟩

/-- Claim C5 counterexample: the value the worker actually returns to the
scheduler is the same `(True, url)` pair for a Skipped run (file already on
disk) and for a successful download, so the produced outcome does not record
which of the five statuses occurred, and carries no byte count. -/
theorem C5_cex :
    (download_js envExisting "https://example.com/app.js" "./js_files" []).status =
      Status.skipped ∧
    (download_js envFresh "https://example.com/app.js" "./js_files" []).status =
      Status.success ∧
    (download_js envExisting "https://example.com/app.js" "./js_files" []).ret =
      (download_js envFresh "https://example.com/app.js" "./js_files" []).ret ∧
    (download_js envTimeout "https://example.com/app.js" "./js_files" []).ret =
      (download_js envNetErr "https://example.com/app.js" "./js_files" []).ret := by
  decide

/-- Claim C5 (amended): the worker's returned outcome records only a boolean
success flag together with the URL: Success and Skipped both yield the flag
`true` and the three failure kinds all yield `false` (only the printed log
line distinguishes them), and no byte count is carried. -/
theorem C5_amended_boolean_outcome (env : Env) (url output_dir : String)
    (custom : List (String × String)) :
    ((download_js env url output_dir custom).ret.1 = true ↔
      ((download_js env url output_dir custom).status = Status.success ∨
       (download_js env url output_dir custom).status = Status.skipped)) ∧
    (download_js env url output_dir custom).ret.2 = url := by
  unfold download_js
  cases hc : create_directory_structure url output_dir with
  | none => simp
  | some m =>
    cases hmk : env.mkdirError with
    | some e => simp
    | none =>
      dsimp only
      cases hex : env.fileExists (m.1 ++ [m.2]) with
      | true => simp [hex]
      | false =>
        simp only [hex, Bool.false_eq_true, if_false]
        cases hf : env.fetch (dictUpdate default_headers custom) with
        | ok text =>
          cases hw : env.writeError with
          | some e => simp
          | none => simp
        | timeout => simp
        | reqError m2 => simp
        | excError m2 => simp

/-- Claim C4: when the mapped target file already exists (and directory
creation does not fail), the worker short-circuits to the Skipped branch and
the network fetch is never invoked. -/
theorem C4_skip_before_fetch (env : Env) (url output_dir : String)
    (custom : List (String × String)) (dp : List String) (fn : String)
    (hm : create_directory_structure url output_dir = some (dp, fn))
    (hmk : env.mkdirError = none)
    (hex : env.fileExists (dp ++ [fn]) = true) :
    (download_js env url output_dir custom).status = Status.skipped ∧
    (download_js env url output_dir custom).fetchCalled = false ∧
    (download_js env url output_dir custom).ret = (true, url) := by
  unfold download_js
  rw [hm, hmk]
  simp [hex]

theorem C4_skip_before_fetch_witness :
    (download_js envExisting "https://example.com/app.js" "./js_files" []).status =
      Status.skipped ∧
    (download_js envExisting "https://example.com/app.js" "./js_files" []).fetchCalled =
      false ∧
    (download_js envExisting "https://example.com/app.js" "./js_files" []).ret =
      (true, "https://example.com/app.js") :=
  C4_skip_before_fetch envExisting "https://example.com/app.js" "./js_files" []
    ["./js_files", "example.com"] "app.js" (by decide) rfl rfl

/-- Claim C8: every directory segment the path mapper produces (the segments
derived from the URL, which follow the caller-supplied base directory) and
the final file name are free of the characters replaced by the sanitizer,
including after the query suffix is appended. -/
theorem C8_mapped_segments_legal (url base : String) (dp : List String)
    (fn : String)
    (h : create_directory_structure url base = some (dp, fn)) :
    (∀ p ∈ dp.tail, bannedFree p = true) ∧ bannedFree fn = true := by
  unfold create_directory_structure at h
  cases hu : urlparse url with
  | none => rw [hu] at h; simp at h
  | some pr =>
    rw [hu] at h
    simp only [Option.map_some', Option.some.injEq, Prod.mk.injEq] at h
    obtain ⟨h1, h2⟩ := h
    subst h1
    subst h2
    constructor
    · intro p hp
      simp only [List.tail_cons] at hp
      rcases List.mem_map.1 hp with ⟨seg, _, hseg⟩
      rw [← hseg]
      exact bannedFree_sanitize seg
    · exact bannedFree_csd_filename _ _

theorem C8_mapped_segments_legal_witness :
    (∀ p ∈ (["./out", "example.com", "a_b"] : List String).tail, bannedFree p = true) ∧
    bannedFree "x_q__1__v_2.js" = true :=
  C8_mapped_segments_legal "https://example.com/a<b/x.js?q=<1>&v=2" "./out"
    ["./out", "example.com", "a_b"] "x_q__1__v_2.js" (by decide)

theorem dictGet_dictSet_self (d : List (String × String)) (k v : String) :
    dictGet (dictSet d k v) k = some v := by
  induction d with
  | nil => simp [dictSet, dictGet]
  | cons p rest ih =>
    by_cases h : p.1 = k
    · simp [dictSet, h, dictGet]
    · simp [dictSet, h, dictGet, ih]

theorem dictGet_dictSet_ne (d : List (String × String)) (k k' v : String)
    (h : k' ≠ k) :
    dictGet (dictSet d k' v) k = dictGet d k := by
  induction d with
  | nil => simp [dictSet, dictGet, h]
  | cons p rest ih =>
    by_cases hp : p.1 = k'
    · have hpk : ¬ p.1 = k := by rw [hp]; exact h
      simp [dictSet, hp, dictGet, h, hpk]
    · simp [dictSet, hp, dictGet, ih]

theorem dictGet_dictUpdate_not_mem (d l : List (String × String)) (k : String)
    (h : k ∉ l.map Prod.fst) :
    dictGet (dictUpdate d l) k = dictGet d k := by
  induction l generalizing d with
  | nil => rfl
  | cons p t ih =>
    simp only [List.map_cons, List.mem_cons, not_or] at h
    rw [show dictUpdate d (p :: t) = dictUpdate (dictSet d p.1 p.2) t from rfl]
    rw [ih _ h.2]
    exact dictGet_dictSet_ne d k p.1 p.2 (fun he => h.1 he.symm)

theorem dictGet_dictUpdate_mem (d l : List (String × String)) (k v : String)
    (hnd : (l.map Prod.fst).Nodup) (hm : (k, v) ∈ l) :
    dictGet (dictUpdate d l) k = some v := by
  induction l generalizing d with
  | nil => cases hm
  | cons p t ih =>
    rw [show dictUpdate d (p :: t) = dictUpdate (dictSet d p.1 p.2) t from rfl]
    simp only [List.map_cons, List.nodup_cons] at hnd
    rcases List.mem_cons.1 hm with he | ht
    · have hk : k ∉ t.map Prod.fst := by
        rw [← he] at hnd
        exact hnd.1
      rw [dictGet_dictUpdate_not_mem _ _ _ hk, ← he]
      exact dictGet_dictSet_self d k v
    · exact ih (dictSet d p.1 p.2) hnd.2 ht

/-- Claim C6: the scheduler dispatches exactly the deduplicated input set —
membership and no duplicates — producing exactly one outcome per distinct
URL, and the reported removed-duplicates number equals the input length
minus the number of distinct URLs. -/
theorem C6_dedup_exactly_once (env : String → Env) (urls : List String)
    (output_dir : String) (custom : List (String × String)) (u : String)
    (hu : u ∈ urls) :
    (∀ v, v ∈ unique_urls urls ↔ v ∈ urls) ∧
    (unique_urls urls).Nodup ∧
    ((run_scheduler env urls output_dir custom).map (fun o => o.ret.2)).count u = 1 ∧
    duplicates_removed urls = urls.length - urls.toFinset.card := by
  refine ⟨fun v => List.mem_dedup, List.nodup_dedup urls, ?_, ?_⟩
  · unfold run_scheduler
    rw [List.map_map]
    have : (unique_urls urls).map
        ((fun o => o.ret.2) ∘ fun u2 => download_js (env u2) u2 output_dir custom) =
        unique_urls urls := by
      have h2 : ∀ u2 ∈ unique_urls urls,
          ((fun o => o.ret.2) ∘ fun u2 => download_js (env u2) u2 output_dir custom) u2 =
            u2 :=
        fun u2 _ => download_js_ret_snd (env u2) u2 output_dir custom
      rw [List.map_congr_left h2]
      exact List.map_id' _
    rw [this]
    exact List.count_eq_one_of_mem (List.nodup_dedup urls) (List.mem_dedup.2 hu)
  · unfold duplicates_removed unique_urls
    rw [List.card_toFinset]

theorem C6_dedup_exactly_once_witness :
    (("a" : String) ∈ ["a", "b", "a"]) ∧
    (((run_scheduler (fun _ => envFresh) ["a", "b", "a"] "./o" []).map
        (fun o => o.ret.2)).count "a" = 1 ∧
      duplicates_removed ["a", "b", "a"] =
        (["a", "b", "a"] : List String).length -
          (["a", "b", "a"] : List String).toFinset.card) :=
  ⟨by decide,
    (C6_dedup_exactly_once (fun _ => envFresh) ["a", "b", "a"] "./o" [] "a"
      (by decide)).2.2⟩

/-- Claim C1 counterexample: when the same key is supplied on the command
line and in the header file, the merged mapping binds it to the FILE value,
not the command-line value: `main` assigns the command-line headers first
and then applies `custom_headers.update(file_headers)`, so the file is
merged last. -/
theorem C1_cex :
    dictGet (collect_custom_headers ["X-Key: cli-value"]
        (some [("X-Key", "file-value")])) "X-Key" = some "file-value" ∧
    ("file-value" : String) ≠ "cli-value" := by
  decide

/-- Claim C1 (amended): the header-file mapping is applied after (overrides)
the command-line headers: any key bound in the file dict ends up bound to
its file value in the merged mapping, whatever the command line said. -/
theorem C1_amended_file_overrides (cli : List String)
    (fh : List (String × String)) (k v : String)
    (hnd : (fh.map Prod.fst).Nodup) (hm : (k, v) ∈ fh) :
    dictGet (collect_custom_headers cli (some fh)) k = some v := by
  unfold collect_custom_headers
  exact dictGet_dictUpdate_mem _ _ _ _ hnd hm

theorem C1_amended_file_overrides_witness :
    dictGet (collect_custom_headers ["Authorization: Bearer cli"]
        (some [("Authorization", "Bearer file")])) "Authorization" =
      some "Bearer file" :=
  C1_amended_file_overrides ["Authorization: Bearer cli"]
    [("Authorization", "Bearer file")] "Authorization" "Bearer file"
    (by decide) (by decide)

theorem csd_filename_query (fn q : String) (h : q ≠ "") :
    csd_filename fn q =
      String.mk ((splitext_data (sanitize_filename fn).data).1 ++
        ('_' :: (query_safe q).data) ++
        (splitext_data (sanitize_filename fn).data).2) := by
  simp only [csd_filename]
  rw [if_pos h]

theorem csd_filename_empty (fn : String) :
    csd_filename fn "" = sanitize_filename fn := by
  simp [csd_filename]

theorem csd_filename_ne (fn q1 q2 : String) (h1 : q1 ≠ "") (h2 : q2 ≠ "")
    (hq : query_safe q1 ≠ query_safe q2) :
    csd_filename fn q1 ≠ csd_filename fn q2 := by
  rw [csd_filename_query fn q1 h1, csd_filename_query fn q2 h2]
  intro he
  apply hq
  apply String.ext
  injection he with hd
  have h3 := List.append_cancel_right hd
  have h4 := List.append_cancel_left h3
  injection h4 with _ h5

/-- Claim C2 counterexample: two URLs identical except for their non-empty,
distinct query strings can collide: the query is sanitized to `[a-zA-Z0-9_]`
and truncated, so `?v=1` and `?v.1` both become the suffix `v_1` and the two
URLs map to the very same location. -/
theorem C2_cex :
    (urlparse "https://example.com/bundle.js?v=1").map ParseResult.query =
      some "v=1" ∧
    (urlparse "https://example.com/bundle.js?v.1").map ParseResult.query =
      some "v.1" ∧
    ("v=1" : String) ≠ "v.1" ∧
    create_directory_structure "https://example.com/bundle.js?v=1" "./js_files" =
      create_directory_structure "https://example.com/bundle.js?v.1" "./js_files" := by
  decide

/-- Claim C2 (amended): two parsable URLs with the same authority and path
and non-empty queries whose sanitized, truncated representations differ map
to the same directory and to two distinct file names; in particular the
spec's example pair `?v=123&env=prod` versus `?v=456` does not collide. -/
theorem C2_amended_distinct_sanitized_queries (u1 u2 base : String)
    (p1 p2 : ParseResult)
    (hp1 : urlparse u1 = some p1) (hp2 : urlparse u2 = some p2)
    (hn : p1.netloc = p2.netloc) (hpath : p1.path = p2.path)
    (hq1 : p1.query ≠ "") (hq2 : p2.query ≠ "")
    (hqs : query_safe p1.query ≠ query_safe p2.query) :
    ∃ dp fn1 fn2,
      create_directory_structure u1 base = some (dp, fn1) ∧
      create_directory_structure u2 base = some (dp, fn2) ∧
      fn1 ≠ fn2 := by
  refine ⟨base :: (csd_split p1.netloc (pyStripChar '/' p1.path)).2.map sanitize_filename,
    csd_filename (csd_split p1.netloc (pyStripChar '/' p1.path)).1 p1.query,
    csd_filename (csd_split p1.netloc (pyStripChar '/' p1.path)).1 p2.query,
    ?_, ?_, ?_⟩
  · simp [create_directory_structure, hp1]
  · simp only [create_directory_structure, hp2, Option.map_some']
    rw [← hn, ← hpath]
  · exact csd_filename_ne _ _ _ hq1 hq2 hqs

theorem C2_amended_distinct_sanitized_queries_witness :
    ∃ dp fn1 fn2,
      create_directory_structure
          "https://example.com/bundle.js?v=123&env=prod" "./js_files" =
        some (dp, fn1) ∧
      create_directory_structure
          "https://example.com/bundle.js?v=456" "./js_files" =
        some (dp, fn2) ∧
      fn1 ≠ fn2 :=
  C2_amended_distinct_sanitized_queries _ _ _
    ⟨"https", "example.com", "/bundle.js", "", "v=123&env=prod", ""⟩
    ⟨"https", "example.com", "/bundle.js", "", "v=456", ""⟩
    (by decide) (by decide) rfl rfl (by decide) (by decide) (by decide)

theorem splitChar_ne_nil (sep : Char) (l : List Char) : splitChar sep l ≠ [] := by
  induction l with
  | nil => simp [splitChar]
  | cons c rest ih =>
    unfold splitChar
    split <;> simp

theorem mem_of_mem_splitChar (sep c : Char) :
    ∀ (l part : List Char), part ∈ splitChar sep l → c ∈ part → c ∈ l := by
  intro l
  induction l with
  | nil =>
    intro part hp hc
    simp only [splitChar, List.mem_singleton] at hp
    subst hp
    cases hc
  | cons d rest ih =>
    intro part hp hc
    unfold splitChar at hp
    cases hr : splitChar sep rest with
    | nil => exact absurd hr (splitChar_ne_nil sep rest)
    | cons h t =>
      rw [hr] at hp
      split at hp
      · rcases List.mem_cons.1 hp with he | ht
        · subst he
          cases hc
        · exact List.mem_cons_of_mem d (ih part (hr ▸ ht) hc)
      · simp only [List.headD_cons, List.tail_cons] at hp
        rcases List.mem_cons.1 hp with he | ht
        · subst he
          rcases List.mem_cons.1 hc with hc1 | hc2
          · exact hc1 ▸ List.mem_cons_self d rest
          · exact List.mem_cons_of_mem d
              (ih h (hr ▸ List.mem_cons_self h t) hc2)
        · exact List.mem_cons_of_mem d
            (ih part (hr ▸ List.mem_cons_of_mem h ht) hc)

theorem path_segments_bannedFree (p : String) (hp : bannedFree p = true) :
    ∀ seg ∈ path_segments p, bannedFree seg = true := by
  intro seg hseg
  rcases List.mem_map.1 hseg with ⟨part, hpart, hmk⟩
  subst hmk
  refine bannedFree_of_subset _ p (fun c hc => ?_) hp
  exact mem_of_mem_splitChar '/' c p.data part hpart hc

theorem pyStripChar_bannedFree (ch : Char) (s : String)
    (h : bannedFree s = true) : bannedFree (pyStripChar ch s) = true := by
  refine bannedFree_of_subset _ s (fun c hc => ?_) h
  simp only [pyStripChar] at hc
  rw [List.mem_reverse] at hc
  have hc1 := (List.dropWhile_sublist _).subset hc
  rw [List.mem_reverse] at hc1
  exact (List.dropWhile_sublist _).subset hc1

theorem getLastD_mem : ∀ (l : List String) (d : String), l ≠ [] → l.getLastD d ∈ l := by
  intro l
  induction l with
  | nil =>
    intro d h
    exact absurd rfl h
  | cons a t ih =>
    intro d h
    rw [List.getLastD_cons]
    cases t with
    | nil => simp [List.getLastD]
    | cons b t2 => exact List.mem_cons_of_mem a (ih a (by simp))

theorem path_segments_ne_nil (p : String) : path_segments p ≠ [] := by
  simp only [path_segments, ne_eq, List.map_eq_nil_iff]
  exact splitChar_ne_nil '/' p.data

theorem csd_split_empty (domain : String) :
    csd_split domain "" = ("index.js", [domain]) := by
  simp [csd_split]

theorem csd_split_js (domain p : String) (h : p ≠ "")
    (hjs : pyEndsWith ((path_segments p).getLastD "") ".js" = true) :
    csd_split domain p =
      ((path_segments p).getLastD "", domain :: (path_segments p).dropLast) := by
  unfold csd_split
  rw [if_pos h]
  dsimp only
  rw [if_pos hjs]

theorem csd_split_notjs (domain p : String) (h : p ≠ "")
    (hjs : pyEndsWith ((path_segments p).getLastD "") ".js" = false) :
    csd_split domain p = ("index.js", domain :: path_segments p) := by
  unfold csd_split
  rw [if_pos h]
  dsimp only
  rw [if_neg (by rw [hjs]; decide)]

/-- Claim C9: writing `stripped` for the URL path with leading and trailing
slashes removed, split at `/` into segments: if the last segment ends in
`.js` it is the file name verbatim and the directories are host plus the
preceding segments; otherwise the file is `index.js` and the directories are
host plus every segment; an empty (or lone-slash) path yields `index.js`
directly under the host.  Stated for query-free URLs whose host and path
carry no sanitizer-replaced character, so every segment really is verbatim. -/
theorem C9_path_to_location_rule (url base : String) (pr : ParseResult)
    (hu : urlparse url = some pr) (hq : pr.query = "")
    (hn : bannedFree pr.netloc = true) (hp : bannedFree pr.path = true) :
    (pyStripChar '/' pr.path = "" →
      create_directory_structure url base =
        some ([base, pr.netloc], "index.js")) ∧
    (pyStripChar '/' pr.path ≠ "" →
      pyEndsWith ((path_segments (pyStripChar '/' pr.path)).getLastD "") ".js" = true →
      create_directory_structure url base =
        some (base :: pr.netloc ::
            (path_segments (pyStripChar '/' pr.path)).dropLast,
          (path_segments (pyStripChar '/' pr.path)).getLastD "")) ∧
    (pyStripChar '/' pr.path ≠ "" →
      pyEndsWith ((path_segments (pyStripChar '/' pr.path)).getLastD "") ".js" = false →
      create_directory_structure url base =
        some (base :: pr.netloc :: path_segments (pyStripChar '/' pr.path),
          "index.js")) := by
  have hstage : create_directory_structure url base =
      some (base ::
          (csd_split pr.netloc (pyStripChar '/' pr.path)).2.map sanitize_filename,
        csd_filename (csd_split pr.netloc (pyStripChar '/' pr.path)).1 pr.query) := by
    simp [create_directory_structure, hu]
  rw [hq] at hstage
  have hsegs := path_segments_bannedFree (pyStripChar '/' pr.path)
    (pyStripChar_bannedFree '/' pr.path hp)
  refine ⟨?_, ?_, ?_⟩
  · intro h0
    rw [h0] at hstage
    rw [hstage, csd_split_empty]
    simp only [List.map_cons, List.map_nil, csd_filename_empty]
    rw [sanitize_eq_self _ hn]
    rw [show sanitize_filename "index.js" = "index.js" from by decide]
  · intro h0 hjs
    rw [hstage, csd_split_js pr.netloc _ h0 hjs]
    simp only [List.map_cons, csd_filename_empty]
    rw [sanitize_eq_self _ hn]
    rw [sanitize_eq_self _ (hsegs _ (getLastD_mem _ "" (path_segments_ne_nil _)))]
    have hmap : (path_segments (pyStripChar '/' pr.path)).dropLast.map sanitize_filename =
        (path_segments (pyStripChar '/' pr.path)).dropLast := by
      rw [List.map_congr_left
        (fun seg hs => sanitize_eq_self seg (hsegs seg (List.mem_of_mem_dropLast hs)))]
      exact List.map_id' _
    rw [hmap]
  · intro h0 hjs
    rw [hstage, csd_split_notjs pr.netloc _ h0 hjs]
    simp only [List.map_cons, csd_filename_empty]
    rw [sanitize_eq_self _ hn]
    have hmap : (path_segments (pyStripChar '/' pr.path)).map sanitize_filename =
        path_segments (pyStripChar '/' pr.path) := by
      rw [List.map_congr_left (fun seg hs => sanitize_eq_self seg (hsegs seg hs))]
      exact List.map_id' _
    rw [hmap]
    rw [show sanitize_filename "index.js" = "index.js" from by decide]

theorem C9_path_to_location_rule_witness :
    create_directory_structure "https://example.com/a/b/app.js" "./js_files" =
      some (["./js_files", "example.com", "a", "b"], "app.js") ∧
    create_directory_structure "https://example.com/" "./js_files" =
      some (["./js_files", "example.com"], "index.js") := by
  have h1 := C9_path_to_location_rule "https://example.com/a/b/app.js" "./js_files"
    ⟨"https", "example.com", "/a/b/app.js", "", "", ""⟩ (by decide) rfl
    (by decide) (by decide)
  have h2 := C9_path_to_location_rule "https://example.com/" "./js_files"
    ⟨"https", "example.com", "/", "", "", ""⟩ (by decide) rfl
    (by decide) (by decide)
  constructor
  · rw [h1.2.1 (by decide) (by decide)]
    decide
  · rw [h2.1 (by decide)]

end JsDownload
